import Mathlib

/-!
Verification development for the Model Registry & Artifact Lifecycle Manager
of the h2o-powerbi-automl repository.  The Python modules under scrutiny are
`src/mlops/mlops.py`, `src/mlops/mlops_manager.py`, `src/modelo_manager.py`
and `src/modelo_manager_ia.py`; each definition below is a shallow embedding
of one of their functions, and its doc comment names the function it models.
-/

namespace H2OPBI

/-! ## Association-list primitives

Python dictionaries and the flat on-disk key/value layouts of the registry
are modelled as insertion-ordered association lists; writing to an existing
key replaces the value in place (as a filesystem write to an existing file
does), writing a fresh key appends at the end (as creating a new file does).
-/

/-- Lookup of the first binding of `k`, modelling Python `d[k]` /
`k in d` on a dict (dict keys are unique). -/
def alistLookup {α : Type} (k : String) : List (String × α) → Option α
  | [] => none
  | (k', v) :: rest => if k' = k then some v else alistLookup k rest

/-- In-place overwrite-or-append write, modelling `open(path, "w")` followed
by a full write: an existing file is replaced where it sits, a new file is
appended to the directory. -/
def listWrite {α : Type} : List (String × α) → String → α → List (String × α)
  | [], p, c => [(p, c)]
  | (q, d) :: rest, p, c =>
      if q = p then (p, c) :: rest else (q, d) :: listWrite rest p c

/-! ## Identifier generation (`MLOpsManager._generar_modelo_id` and friends)

`src/mlops/mlops.py:96-99` builds the artifact id by string concatenation
whose only per-call component is `datetime.now().strftime("%Y%m%d_%H%M%S")`,
a second-resolution timestamp.  No monotonic counter is appended.  The
timestamp string is passed explicitly here (the embedding is the function of
the clock reading that the source is). -/
def generarModeloId (tipoModelo tipoProblema dataset version timestamp : String) : String :=
  "modelo_" ++ tipoModelo ++ "_" ++ tipoProblema ++ "_" ++ dataset ++ "_" ++ version
    ++ "_" ++ timestamp

/-- `MLOpsManager._generar_metricas_id` (`src/mlops/mlops.py:101-104`):
metrics id from model id plus a second-resolution timestamp. -/
def generarMetricasId (modeloId timestamp : String) : String :=
  "metricas_" ++ modeloId ++ "_eval_" ++ timestamp

/-- `ModeloManager.crear_ejercicio_automl` (`src/modelo_manager.py:46-48`)
builds its exercise id with a MINUTE-resolution timestamp
(`"%Y%m%d_%H%M"`). -/
def crearEjercicioId (nombreEjercicio timestamp : String) : String :=
  nombreEjercicio ++ "_" ++ timestamp

/-- Python's builtin `abs` on the (exactly represented) numeric values of a
distribution summary. -/
def pyAbs (q : ℚ) : ℚ := if q < 0 then -q else q

/-! ## Filesystem model for `MLOpsManager.registrar_modelo`

`src/mlops/mlops.py:106-170` persists a model by (1) `os.makedirs` of the
versioned directory, (2) `h2o.save_model(modelo, path=..., force=True)`
which serializes the blob to a file inside it, and (3) `open(metadata_path,
"w")` + `json.dump` of the metadata document.  All three act directly on the
FINAL paths; no temporary file and no rename appears anywhere in the
function.  The state is a set of directories plus a file map. -/

structure FS where
  dirs : List String
  files : List (String × String)
deriving DecidableEq

def FS.empty : FS := ⟨[], []⟩

/-- `os.makedirs(path, exist_ok=True)`. -/
def FS.mkdir (fs : FS) (p : String) : FS :=
  if p ∈ fs.dirs then fs else { fs with dirs := fs.dirs ++ [p] }

/-- `open(path, "w")` then a complete write of `c` (replaces in place). -/
def FS.write (fs : FS) (p c : String) : FS :=
  { fs with files := listWrite fs.files p c }

def FS.read (fs : FS) (p : String) : Option String :=
  alistLookup p fs.files

/-- `os.path.exists` on a directory (the check `cargar_modelo` uses for
"does this model id exist"). -/
def FS.dirExists (fs : FS) (p : String) : Bool :=
  fs.dirs.contains p

/-- One elementary filesystem effect of `registrar_modelo`; a crash can
strike between any two of them. -/
inductive FSOp where
  | mkdir (p : String)
  | create (p : String)
  | write (p : String) (content : String)
deriving DecidableEq

def applyOp (fs : FS) : FSOp → FS
  | .mkdir p => fs.mkdir p
  | .create p => fs.write p ""
  | .write p c => fs.write p c

def runOps (fs : FS) (ops : List FSOp) : FS :=
  ops.foldl applyOp fs

/-- Directory `mlops/modelos/<id>/modelo` created at
`src/mlops/mlops.py:131-132` (under the model-id directory, which
`os.makedirs` creates transitively; we track the id directory itself, the
one `cargar_modelo` line 205-206 tests for existence). -/
def modeloDir (modeloId : String) : String :=
  "mlops/modelos/" ++ modeloId

/-- The file `h2o.save_model` writes inside `mlops/modelos/<id>/modelo`
(`src/mlops/mlops.py:136`). -/
def blobPath (modeloId : String) : String :=
  "mlops/modelos/" ++ modeloId ++ "/modelo/blob"

/-- `metadata_path` of `src/mlops/mlops.py:161`:
`mlops/modelos/<id>/<id>_metadata.json` — the FINAL name, written directly. -/
def metadataPath (modeloId : String) : String :=
  "mlops/modelos/" ++ modeloId ++ "/" ++ modeloId ++ "_metadata.json"

/-- The elementary effect sequence of `registrar_modelo`
(`src/mlops/mlops.py:130-163`): make the directory, create and fill the blob
file at its final path, create and fill the metadata file at its final path.
`blob` is the H2O serialization, `metaJson` the `json.dump` output of
`metadata_completa` (both opaque here). -/
def registrarOps (modeloId blob metaJson : String) : List FSOp :=
  [ .mkdir (modeloDir modeloId),
    .create (blobPath modeloId),
    .write (blobPath modeloId) blob,
    .create (metadataPath modeloId),
    .write (metadataPath modeloId) metaJson ]

/-- `registrar_modelo` run to completion: the id is minted from the inputs
and the second-resolution clock, then all five effects run; the function
returns the id (`src/mlops/mlops.py:166`). -/
def registrarModelo (tipoModelo tipoProblema dataset version timestamp blob metaJson : String)
    (fs : FS) : FS × String :=
  let modeloId := generarModeloId tipoModelo tipoProblema dataset version timestamp
  (runOps fs (registrarOps modeloId blob metaJson), modeloId)

/-- `registrar_modelo` interrupted by a crash after the first `k` elementary
effects: the prefix of the effect list is applied and nothing else runs. -/
def registrarInterrupted (k : Nat) (modeloId blob metaJson : String) (fs : FS) : FS :=
  runOps fs ((registrarOps modeloId blob metaJson).take k)

/-- `registrar_modelo` when `json.dump` of the metadata raises (e.g. a
non-serializable parameter object): the directory, the blob and the opened
(empty) metadata file are already on disk; the `except` block at
`src/mlops/mlops.py:168-170` only logs and re-raises — it deletes nothing. -/
def registrarModeloMetaFails (modeloId blob : String) (fs : FS) : FS × Bool :=
  (runOps fs ((registrarOps modeloId blob "").take 4), false)

/-! ## Metrics store (`guardar_metricas` / `obtener_metricas_modelo`)

`guardar_metricas` (`src/mlops/mlops.py:172-199`) writes the snapshot to
`mlops/metricas/metricas_<id>_eval_<ts>.json` where `<ts>` has second
resolution; `obtener_metricas_modelo` (`src/mlops/mlops.py:291-309`)
collects every file of the metrics directory whose NAME starts with
`metricas_<id>` and concatenates their contents in `os.listdir` order —
an order Python leaves arbitrary and the source does not sort.  The stored
directory is the insertion-ordered file map above; the listing that
`os.listdir` yields is any permutation of it. -/

/-- Python `str.startswith`. -/
def pyStartsWith (s pre : String) : Bool :=
  pre.data.isPrefixOf s.data

/-- File name used by `guardar_metricas` (`src/mlops/mlops.py:190`). -/
def metricasFileName (modeloId timestamp : String) : String :=
  generarMetricasId modeloId timestamp ++ ".json"

/-- The persistent effect of `guardar_metricas`: serialize the snapshot and
write it at the timestamp-derived final name (overwriting any file of the
same name). -/
def guardarMetricasWrite (modeloId timestamp payload : String)
    (dir : List (String × String)) : List (String × String) :=
  listWrite dir (metricasFileName modeloId timestamp) payload

/-- `obtener_metricas_modelo` (`src/mlops/mlops.py:297-305`): the snapshots
of every file whose name starts with `metricas_<id>`, in the order of the
`os.listdir` listing handed in.  Python documents that order as ARBITRARY
and the source applies no sort, so theorems about this function must hold
for EVERY permutation of the stored directory entries. -/
def obtenerMetricasModelo (listing : List (String × String)) (modeloId : String) :
    List String :=
  (listing.filter (fun e => pyStartsWith e.1 ("metricas_" ++ modeloId))).map Prod.snd

/-- The whole operation with its `except` clause: when the metrics
directory cannot be listed (e.g. it does not exist), the exception is caught
at `src/mlops/mlops.py:307-309` and the function returns an EMPTY table. -/
def obtenerMetricasModeloSafe (dir : Option (List (String × String))) (modeloId : String) :
    List String :=
  match dir with
  | none => []
  | some d => obtenerMetricasModelo d modeloId

/-! ## `MLOpsManager.__init__` and the `self.logger` attribute (C10)

`__init__` (`src/mlops/mlops.py:42-58`) assigns `base_dir`, five further
directory attributes and `modelo_ia_manager` — and never `self.logger`
(the module uses the GLOBAL `logger` everywhere else).  `guardar_metricas`
alone reads `self.logger` (lines 194 and 198); an instance-attribute read
that was never assigned raises `AttributeError`.  The attribute table is
modelled by the one field that matters: whether `self.logger` is set. -/

structure MLOpsManagerState where
  /-- Value of the `self.logger` attribute, `none` when never assigned. -/
  loggerAttr : Option Unit
  /-- Content of the `mlops/metricas` directory. -/
  metricasDir : List (String × String)
deriving DecidableEq

/-- `MLOpsManager.__init__` (`src/mlops/mlops.py:42-58`): creates the
directory layout; no statement assigns `self.logger`. -/
def mlopsInit : MLOpsManagerState :=
  { loggerAttr := none, metricasDir := [] }

inductive PyError where
  | attributeError (attr : String)
deriving DecidableEq

/-- `MLOpsManager.guardar_metricas` (`src/mlops/mlops.py:172-199`).  The
try-body writes the snapshot file (lines 190-192) and then evaluates
`self.logger.info(...)` (line 194).  When `self.logger` is unset this
raises `AttributeError`; the `except` block (198) evaluates
`self.logger.error(...)`, which raises the same `AttributeError` again, so
the call never returns normally — but the file write has already happened.
The new state is returned alongside the outcome because the filesystem is
persistent. -/
def guardarMetricas (st : MLOpsManagerState) (modeloId timestamp payload : String) :
    MLOpsManagerState × Except PyError String :=
  let metricasId := generarMetricasId modeloId timestamp
  let st' := { st with
    metricasDir := guardarMetricasWrite modeloId timestamp payload st.metricasDir }
  match st'.loggerAttr with
  | some _ => (st', .ok metricasId)
  | none => (st', .error (.attributeError "logger"))

/-! ## Drift detector (`MLOpsManager.detectar_drift`)

`src/mlops/mlops.py:311-345`.  A feature-distribution summary maps a
feature name to its (mean, std) pair; numeric values are modelled exactly
as rationals.  The per-feature loop (lines 326-339) iterates the REFERENCE
keys and handles a feature ONLY `if feature in distribucion_actual`; there
is no `else` branch, no thresholds argument and no overall flag. -/

/-- A feature-distribution summary: feature name ↦ (mean, std), unique keys
(it comes from a Python dict, `describe().to_dict()`). -/
abbrev Dist := List (String × ℚ × ℚ)

/-- The comparison loop of `detectar_drift` (`src/mlops/mlops.py:325-341`):
features of the reference found in the candidate contribute
`(|Δmean|, |Δstd|)`; the rest are skipped. -/
def detectarDriftCore (ref cand : Dist) : List (String × ℚ × ℚ) :=
  ref.filterMap (fun e =>
    match alistLookup e.1 cand with
    | some mc => some (e.1, pyAbs (e.2.1 - mc.1), pyAbs (e.2.2 - mc.2))
    | none => none)

/-- `detectar_drift` end to end: line 315-319 loads
`metadata['distribucion_features']` from `mlops/modelos/<id>/metadata.json`.
A missing file or missing key raises, the `except` block at lines 343-345
catches EVERYTHING and returns `{}`.  The store maps a model id to `none`
when its metadata document lacks the `distribucion_features` key (as the
documents written by `registrar_modelo` do) and to `some ref` otherwise. -/
def detectarDrift (store : List (String × Option Dist)) (modeloId : String) (cand : Dist) :
    List (String × ℚ × ℚ) :=
  match alistLookup modeloId store with
  | none => []
  | some none => []
  | some (some ref) => detectarDriftCore ref cand

/-- Modelled from the spec: `drift_detected` of §4.5 — "true iff at least
one feature is flagged", a feature being flagged when its deviation exceeds
the (mean, std) thresholds.  The source computes only the per-feature
deviations; this is the spec's thresholding rule applied to them. -/
def driftDetectedSpec (report : List (String × ℚ × ℚ)) (tMean tStd : ℚ) : Bool :=
  report.any (fun e => tMean < e.2.1 || tStd < e.2.2)

/-! ## Integrity-verified fetcher (`ModeloManagerIA`)

`src/modelo_manager_ia.py`.  `descargar_modelo` (lines 50-82) streams the
remote bytes DIRECTLY into `self.model_path`, the canonical path — there is
no temporary file and no rename; only a raised exception during the stream
deletes the partial file (lines 78-82).  `verificar_hash` (84-101) hashes
the canonical file and compares with the expected digest.  `verificar_modelo`
(30-48) downloads when the file is absent, re-downloads when the hash
mismatches, and returns the final `verificar_hash` verdict — leaving
whatever the download produced at the canonical path.  The hash function is
a parameter (the source delegates to `hashlib.md5`); file content is a byte
list. -/

/-- `ModeloManagerIA.verificar_hash`: `False` when the file is absent,
otherwise digest comparison (`src/modelo_manager_ia.py:84-97`). -/
def verificarHash (hash : List Nat → String) (expected : String)
    (file : Option (List Nat)) : Bool :=
  match file with
  | none => false
  | some c => hash c == expected

/-- `ModeloManagerIA.descargar_modelo`, successful stream: the remote bytes
end up at the canonical path (`src/modelo_manager_ia.py:69-73`). -/
def descargarModelo (remote : List Nat) (_file : Option (List Nat)) : Option (List Nat) :=
  some remote

/-- `ModeloManagerIA.verificar_modelo` (`src/modelo_manager_ia.py:30-48`):
returns the validity verdict and the resulting canonical-path content. -/
def verificarModelo (hash : List Nat → String) (expected : String) (remote : List Nat)
    (file : Option (List Nat)) : Bool × Option (List Nat) :=
  match file with
  | none =>
      let f' := descargarModelo remote none
      (verificarHash hash expected f', f')
  | some c =>
      if verificarHash hash expected (some c) then (true, some c)
      else
        let f' := descargarModelo remote (some c)
        (verificarHash hash expected f', f')

/-- A concrete stand-in checksum function used to evaluate the fetcher at
specific inputs: content `[1]` hashes to `"aa"`, everything else to `"bb"`. -/
def hashCex : List Nat → String :=
  fun c => if c == [1] then "aa" else "bb"

/-! ## Shared lemmas -/

theorem alistLookup_listWrite {α : Type} (l : List (String × α)) (p q : String) (c : α) :
    alistLookup q (listWrite l p c) = if p = q then some c else alistLookup q l := by
  induction l with
  | nil => simp [listWrite, alistLookup]
  | cons hd tl ih =>
      obtain ⟨k, v⟩ := hd
      by_cases hkp : k = p
      · subst hkp
        by_cases hq : k = q <;> simp [listWrite, alistLookup, hq]
      · by_cases hq : k = q
        · subst hq
          have hpk : ¬ p = k := fun h => hkp h.symm
          simp [listWrite, alistLookup, hkp, hpk]
        · simp [listWrite, alistLookup, hkp, hq, ih]

/-- Writing to a key that is not present appends the binding at the end. -/
theorem listWrite_of_not_mem {α : Type} (l : List (String × α)) (p : String) (c : α)
    (h : p ∉ l.map Prod.fst) : listWrite l p c = l ++ [(p, c)] := by
  induction l with
  | nil => rfl
  | cons hd tl ih =>
      obtain ⟨k, v⟩ := hd
      simp only [List.map_cons, List.mem_cons] at h
      push_neg at h
      have hk : ¬ k = p := fun hkp => h.1 hkp.symm
      simp [listWrite, hk, ih h.2]

theorem string_data_append (s t : String) : (s ++ t).data = s.data ++ t.data := by
  cases s; cases t; rfl

theorem string_append_right_cancel {s t u : String} (h : s ++ t = s ++ u) : t = u := by
  have hd : s.data ++ t.data = s.data ++ u.data := by
    have h2 := congrArg String.data h
    rw [string_data_append, string_data_append] at h2
    exact h2
  have := List.append_cancel_left hd
  cases t; cases u; exact congrArg String.mk this

theorem pyAbs_nonneg (q : ℚ) : 0 ≤ pyAbs q := by
  unfold pyAbs
  split
  · linarith
  · linarith

theorem pyAbs_self_sub (q : ℚ) : pyAbs (q - q) = 0 := by
  simp [pyAbs]

theorem FS.read_write (fs : FS) (p c q : String) :
    (fs.write p c).read q = if p = q then some c else fs.read q := by
  simp [FS.write, FS.read, alistLookup_listWrite]

theorem FS.read_mkdir (fs : FS) (p q : String) : (fs.mkdir p).read q = fs.read q := by
  unfold FS.mkdir
  split <;> rfl

theorem FS.dirs_write (fs : FS) (p c : String) : (fs.write p c).dirs = fs.dirs := rfl

theorem FS.dirExists_write (fs : FS) (p c q : String) :
    (fs.write p c).dirExists q = fs.dirExists q := rfl

theorem FS.dirExists_mkdir_self (fs : FS) (p : String) : (fs.mkdir p).dirExists p = true := by
  unfold FS.mkdir FS.dirExists
  split
  · simpa using (by assumption : p ∈ fs.dirs)
  · simp

theorem FS.mem_dirs_mkdir_self (fs : FS) (p : String) : p ∈ (fs.mkdir p).dirs := by
  unfold FS.mkdir
  split
  · assumption
  · simp

theorem FS.mkdir_of_mem (fs : FS) (p : String) (h : p ∈ fs.dirs) : fs.mkdir p = fs := by
  simp [FS.mkdir, h]

theorem strAppend_assoc (a b c : String) : (a ++ b) ++ c = a ++ (b ++ c) := by
  cases a; cases b; cases c
  exact congrArg String.mk (List.append_assoc _ _ _)

theorem list_isPrefixOf_append (l r : List Char) : l.isPrefixOf (l ++ r) = true := by
  induction l with
  | nil => simp [List.isPrefixOf]
  | cons a as ih => simp [List.isPrefixOf, ih]

theorem pyStartsWith_append (pre rest : String) : pyStartsWith (pre ++ rest) pre = true := by
  unfold pyStartsWith
  rw [string_data_append]
  exact list_isPrefixOf_append _ _

/-- File names minted by `guardar_metricas` determine the timestamp: two
fetches of the same model id collide exactly when the second-resolution
timestamps coincide. -/
theorem metricasFileName_inj {modeloId t t' : String}
    (h : metricasFileName modeloId t = metricasFileName modeloId t') : t = t' := by
  unfold metricasFileName generarMetricasId at h
  have hd := congrArg String.data h
  simp only [string_data_append] at hd
  have h1 := List.append_cancel_right hd
  have h2 := List.append_cancel_left h1
  cases t; cases t'
  exact congrArg String.mk h2

theorem metricasFileName_startsWith (modeloId t : String) :
    pyStartsWith (metricasFileName modeloId t) ("metricas_" ++ modeloId) = true := by
  have he : metricasFileName modeloId t
      = ("metricas_" ++ modeloId) ++ ("_eval_" ++ (t ++ ".json")) := by
    unfold metricasFileName generarMetricasId
    simp [strAppend_assoc]
  rw [he]
  exact pyStartsWith_append _ _

/-- The blob path and the metadata path of one model id are distinct files
(their lengths differ for every id). -/
theorem metadataPath_ne_blobPath (modeloId : String) :
    metadataPath modeloId ≠ blobPath modeloId := by
  intro h
  have hlen := congrArg (fun s => s.data.length) h
  have l1 : ("mlops/modelos/" : String).data.length = 14 := by decide
  have l2 : ("/" : String).data.length = 1 := by decide
  have l3 : ("_metadata.json" : String).data.length = 14 := by decide
  have l4 : ("/modelo/blob" : String).data.length = 12 := by decide
  simp only [metadataPath, blobPath, string_data_append, List.length_append,
    l1, l2, l3, l4] at hlen
  omega

/-! ## Claim theorems -/

/-- C1: the claim says a registration interrupted between the temporary
write and the final rename leaves `exists(id) = false`, `load(id)` failing
with NotFound, and no truncated artifact visible under the final id.
`registrar_modelo` has no temporary path and no rename: interrupting it
after the metadata file is opened at its FINAL path (step 4 of its five
elementary effects, before `json.dump` fills it) leaves the model directory
visible — so `exists(id)` is true — and a truncated (empty) metadata file
sitting under the final name, differing from the intended document.  This
evaluates the code at the failing input of the claim. -/
theorem registrar_crash_leaves_truncated_artifact :
    (registrarInterrupted 4 "modelo_h2o_gbm_regresion_sales_v1_20261012_101010"
        "H2OBLOB" "metadata-document" FS.empty).dirExists
        (modeloDir "modelo_h2o_gbm_regresion_sales_v1_20261012_101010") = true
    ∧ (registrarInterrupted 4 "modelo_h2o_gbm_regresion_sales_v1_20261012_101010"
        "H2OBLOB" "metadata-document" FS.empty).read
        (metadataPath "modelo_h2o_gbm_regresion_sales_v1_20261012_101010") = some ""
    ∧ (some "" : Option String) ≠ some "metadata-document" := by
  refine ⟨by decide, by decide, by decide⟩

/-- C2 counterexample: registering twice with inputs that mint the same id
(same arguments, same second-resolution timestamp) raises no duplicate-id
error — the second call returns the same id normally and silently
overwrites both the blob and the metadata with its own content. -/
theorem registrar_duplicate_id_overwrites :
    (registrarModelo "h2o_gbm" "regresion" "sales" "v1" "20261012_101010" "B2" "M2"
        (registrarModelo "h2o_gbm" "regresion" "sales" "v1" "20261012_101010" "B1" "M1"
          FS.empty).1).2
      = (registrarModelo "h2o_gbm" "regresion" "sales" "v1" "20261012_101010" "B1" "M1"
          FS.empty).2
    ∧ (registrarModelo "h2o_gbm" "regresion" "sales" "v1" "20261012_101010" "B2" "M2"
        (registrarModelo "h2o_gbm" "regresion" "sales" "v1" "20261012_101010" "B1" "M1"
          FS.empty).1).1.read
        (metadataPath "modelo_h2o_gbm_regresion_sales_v1_20261012_101010") = some "M2"
    ∧ (some "M2" : Option String) ≠ some "M1" := by
  refine ⟨by decide, by decide, by decide⟩

/-- C2 as amended: a second registration that mints the same id does not
fail — it overwrites in place; when the written content is identical
(same blob, same serialized metadata) the registry state after the second
call is identical, file by file and directory by directory, to the state
after the first call, and the same id is returned. -/
theorem registrar_duplicate_id_idempotent
    (tipoModelo tipoProblema dataset version timestamp blob metaJson : String) (fs : FS) :
    (registrarModelo tipoModelo tipoProblema dataset version timestamp blob metaJson
        (registrarModelo tipoModelo tipoProblema dataset version timestamp blob metaJson
          fs).1).2
      = (registrarModelo tipoModelo tipoProblema dataset version timestamp blob metaJson
          fs).2
    ∧ (registrarModelo tipoModelo tipoProblema dataset version timestamp blob metaJson
        (registrarModelo tipoModelo tipoProblema dataset version timestamp blob metaJson
          fs).1).1.dirs
      = (registrarModelo tipoModelo tipoProblema dataset version timestamp blob metaJson
          fs).1.dirs
    ∧ ∀ q, (registrarModelo tipoModelo tipoProblema dataset version timestamp blob metaJson
        (registrarModelo tipoModelo tipoProblema dataset version timestamp blob metaJson
          fs).1).1.read q
      = (registrarModelo tipoModelo tipoProblema dataset version timestamp blob metaJson
          fs).1.read q := by
  set modeloId := generarModeloId tipoModelo tipoProblema dataset version timestamp with hid
  refine ⟨rfl, ?_, ?_⟩
  · simp only [registrarModelo, runOps, registrarOps, List.foldl, applyOp, FS.dirs_write]
    rw [FS.mkdir_of_mem]
    · simp only [FS.dirs_write]
    · simp only [FS.dirs_write]
      exact FS.mem_dirs_mkdir_self _ _
  · intro q
    simp only [registrarModelo, runOps, registrarOps, List.foldl, applyOp]
    by_cases hm : metadataPath modeloId = q
    · simp [FS.read_write, hm]
    · by_cases hb : blobPath modeloId = q
      · simp [FS.read_write, hm, hb]
      · simp [FS.read_write, FS.read_mkdir, hm, hb]

/-- C3 counterexample: the artifact id is a pure function of the model
kind, problem category, dataset, version label and the SECOND-resolution
timestamp — nothing else varies between two calls, so two registration
events in the same second receive byte-identical ids (and
`crear_ejercicio_automl` only has MINUTE resolution).  No monotonic
sequence number exists anywhere in either generator. -/
theorem generar_modelo_id_same_second_collision :
    generarModeloId "h2o_automl" "clasificacion_binaria" "titanic" "v1" "20261012_101010"
      = generarModeloId "h2o_automl" "clasificacion_binaria" "titanic" "v1" "20261012_101010"
    ∧ crearEjercicioId "experimento" "20261012_1010"
      = crearEjercicioId "experimento" "20261012_1010"
    ∧ generarModeloId "h2o_automl" "clasificacion_binaria" "titanic" "v1" "20261012_101010"
      = "modelo_h2o_automl_clasificacion_binaria_titanic_v1_20261012_101010" := by
  refine ⟨rfl, rfl, by decide⟩

/-- C3 as amended: two identifier-generation calls with the same arguments
yield distinguishable ids exactly when their second-resolution timestamps
differ; within one second the ids coincide (no sequence number is
appended). -/
theorem generar_modelo_id_distinct_iff_timestamp_distinct
    (tipoModelo tipoProblema dataset version t t' : String) :
    generarModeloId tipoModelo tipoProblema dataset version t
      = generarModeloId tipoModelo tipoProblema dataset version t' ↔ t = t' := by
  constructor
  · intro h
    exact string_append_right_cancel h
  · intro h
    rw [h]

/-- C4 counterexample: with the canonical file absent and remote bytes
whose checksum differs from the expected digest, `verificar_modelo`
downloads straight to the canonical path, the verification fails (the call
returns `false`) — and the mismatching content is LEFT at the canonical
path, violating the invariant "the canonical path, if present, satisfies
checksum(path) == expected" and "a fetch that fails verification leaves no
corrupt file at the canonical path". -/
theorem verificar_modelo_failed_fetch_leaves_corrupt_file :
    verificarModelo hashCex "aa" [2] none = (false, some [2])
    ∧ (hashCex [2] == "aa") = false := by
  refine ⟨by decide, by decide⟩

/-- C4 as amended: `verificar_modelo` never reports failing content as
valid — it returns `true` exactly when the content finally at the canonical
path hashes to the expected digest — but after any call the canonical path
is always occupied (a failed download is not cleaned up, and a stale file
is overwritten by re-download rather than deleted), so a verification
failure leaves the corrupt content in place, reported only by the `false`
return value. -/
theorem verificar_modelo_true_iff_checksum_matches
    (hash : List Nat → String) (expected : String) (remote : List Nat)
    (file : Option (List Nat)) :
    ((verificarModelo hash expected remote file).1 = true
      ↔ ∃ c, (verificarModelo hash expected remote file).2 = some c ∧ hash c = expected)
    ∧ ∃ c, (verificarModelo hash expected remote file).2 = some c := by
  cases file with
  | none =>
      constructor
      · simp [verificarModelo, descargarModelo, verificarHash, beq_iff_eq]
      · exact ⟨remote, rfl⟩
  | some c =>
      by_cases h : verificarHash hash expected (some c) = true
      · have hc : hash c = expected := by
          simpa [verificarHash, beq_iff_eq] using h
        constructor
        · simp [verificarModelo, verificarHash, beq_iff_eq, hc]
        · exact ⟨c, by simp [verificarModelo, verificarHash, beq_iff_eq, hc]⟩
      · have hc : ¬ hash c = expected := by
          simpa [verificarHash, beq_iff_eq] using h
        constructor
        · simp [verificarModelo, descargarModelo, verificarHash, beq_iff_eq, hc]
        · exact ⟨remote, by simp [verificarModelo, descargarModelo, verificarHash,
            beq_iff_eq, hc]⟩

/-- C5 counterexample: a feature (`"x"`) present in the reference summary
but absent from the candidate produces an EMPTY drift report — the feature
is silently omitted, not reported as maximally drifted. -/
theorem detectar_drift_missing_feature_omitted :
    detectarDriftCore [("x", 0, 1)] [] = []
    ∧ "x" ∈ ([("x", (0 : ℚ), (1 : ℚ))].map Prod.fst) := by
  refine ⟨rfl, by decide⟩

/-- C5 as amended: the drift report contains exactly the features present
in BOTH the reference and the candidate; a feature present on only one side
is silently dropped from the report (the loop iterates the reference keys
and has no branch for candidate misses, and candidate-only features are
never visited). -/
theorem detectar_drift_reports_exactly_shared_features (ref cand : Dist) :
    (detectarDriftCore ref cand).map Prod.fst
      = (ref.map Prod.fst).filter (fun f => (alistLookup f cand).isSome) := by
  induction ref with
  | nil => rfl
  | cons e rest ih =>
      cases hl : alistLookup e.1 cand with
      | none => simpa [detectarDriftCore, List.filterMap_cons, hl, List.filter_cons] using ih
      | some mc => simpa [detectarDriftCore, List.filterMap_cons, hl, List.filter_cons] using ih

/-- C7 counterexample: when the metadata `json.dump` fails after the blob
was written, the failed registration leaves the artifact directory and the
blob on disk (no rollback is attempted), i.e. an orphaned artifact with no
discoverable metadata. -/
theorem registrar_meta_failure_leaves_orphan :
    (registrarModeloMetaFails "m1" "BLOB" FS.empty).1.read (blobPath "m1") = some "BLOB"
    ∧ (registrarModeloMetaFails "m1" "BLOB" FS.empty).1.dirExists (modeloDir "m1") = true
    ∧ (registrarModeloMetaFails "m1" "BLOB" FS.empty).2 = false := by
  refine ⟨by decide, by decide, by decide⟩

/-- C7 as amended: registration does write the artifact blob before the
metadata document (the effect sequence is directory, blob create, blob
write, metadata create, metadata write), but when metadata registration
fails the artifact directory is NOT rolled back: the blob and its directory
remain on disk while the call reports failure. -/
theorem registrar_blob_before_metadata_no_rollback
    (modeloId blob metaJson : String) (fs : FS) :
    registrarOps modeloId blob metaJson
      = [ .mkdir (modeloDir modeloId),
          .create (blobPath modeloId),
          .write (blobPath modeloId) blob,
          .create (metadataPath modeloId),
          .write (metadataPath modeloId) metaJson ]
    ∧ (registrarModeloMetaFails modeloId blob fs).1.read (blobPath modeloId) = some blob
    ∧ (registrarModeloMetaFails modeloId blob fs).1.dirExists (modeloDir modeloId) = true
    ∧ (registrarModeloMetaFails modeloId blob fs).2 = false := by
  refine ⟨rfl, ?_, ?_, rfl⟩
  · simp only [registrarModeloMetaFails, runOps, registrarOps, List.take, List.foldl,
      applyOp]
    rw [FS.read_write, if_neg (metadataPath_ne_blobPath modeloId)]
    simp [FS.read_write, FS.read_mkdir]
  · simp only [registrarModeloMetaFails, runOps, registrarOps, List.take, List.foldl,
      applyOp, FS.dirExists_write]
    exact FS.dirExists_mkdir_self _ _

/-- C6 counterexample: two metrics snapshots appended for one id within the
same second get the SAME file name, so the second append overwrites the
first; the retrieved history holds one snapshot, not two. -/
theorem guardar_metricas_same_second_overwrites :
    obtenerMetricasModelo (guardarMetricasWrite "m" "20260101_010101" "snap2"
        (guardarMetricasWrite "m" "20260101_010101" "snap1" [])) "m" = ["snap2"]
    ∧ (["snap2"] : List String) ≠ ["snap1", "snap2"] := by
  refine ⟨by decide, by decide⟩

/-- The stored metrics directory after a sequence of appends whose file
names are all fresh: each `open(path, "w")` on an absent name appends one
entry, so the directory holds one entry per append. -/
theorem guardar_metricas_foldl_fresh_eq (modeloId : String) :
    ∀ (apps : List (String × String)) (dir : List (String × String)),
      (apps.map Prod.fst).Nodup →
      (∀ t ∈ apps.map Prod.fst, metricasFileName modeloId t ∉ dir.map Prod.fst) →
      apps.foldl (fun d tp => guardarMetricasWrite modeloId tp.1 tp.2 d) dir
        = dir ++ apps.map (fun tp => (metricasFileName modeloId tp.1, tp.2)) := by
  intro apps
  induction apps with
  | nil =>
      intro dir _ _
      simp
  | cons tp rest ih =>
      intro dir hnd hfresh
      obtain ⟨t, p⟩ := tp
      have hfn : metricasFileName modeloId t ∉ dir.map Prod.fst := by
        apply hfresh
        simp
      have hdir' : guardarMetricasWrite modeloId t p dir
          = dir ++ [(metricasFileName modeloId t, p)] :=
        listWrite_of_not_mem _ _ _ hfn
      have hnd0 : t ∉ rest.map Prod.fst ∧ (rest.map Prod.fst).Nodup := by
        simpa using hnd
      have hfresh' : ∀ t' ∈ rest.map Prod.fst, metricasFileName modeloId t'
          ∉ (dir ++ [(metricasFileName modeloId t, p)]).map Prod.fst := by
        intro t' ht'
        simp only [List.map_append, List.mem_append, List.map_cons, List.map_nil,
          List.mem_singleton, not_or]
        refine ⟨hfresh t' (by simp [ht']), ?_⟩
        intro he
        exact hnd0.1 (metricasFileName_inj he ▸ ht')
      rw [List.foldl_cons, hdir', ih _ hnd0.2 hfresh']
      simp

/-- C6 as amended: for every sequence of metrics appends for one id whose
second-resolution timestamps are pairwise distinct, and for EVERY order in
which `os.listdir` may enumerate the resulting directory (any permutation
of its entries — Python leaves the order arbitrary and the source applies
no sort), retrieval returns exactly the appended snapshots, none lost and
none duplicated, in that unspecified listing order; appends sharing a
timestamp second collide on the file name and overwrite instead. -/
theorem obtener_metricas_perm_of_distinct_timestamps
    (modeloId : String) (apps listing : List (String × String))
    (hnd : (apps.map Prod.fst).Nodup)
    (hperm : listing.Perm
      (apps.foldl (fun d tp => guardarMetricasWrite modeloId tp.1 tp.2 d) [])) :
    (obtenerMetricasModelo listing modeloId).Perm (apps.map Prod.snd) := by
  have hdir := guardar_metricas_foldl_fresh_eq modeloId apps [] hnd (by intro t _; simp)
  rw [hdir, List.nil_append] at hperm
  have h1 := hperm.filter (fun e => pyStartsWith e.1 ("metricas_" ++ modeloId))
  have h2 : (apps.map (fun tp => (metricasFileName modeloId tp.1, tp.2))).filter
      (fun e => pyStartsWith e.1 ("metricas_" ++ modeloId))
      = apps.map (fun tp => (metricasFileName modeloId tp.1, tp.2)) := by
    rw [List.filter_eq_self]
    intro a ha
    obtain ⟨tp, _, rfl⟩ := List.mem_map.mp ha
    exact metricasFileName_startsWith modeloId tp.1
  rw [h2] at h1
  have h3 := h1.map Prod.snd
  have h4 : (apps.map (fun tp => (metricasFileName modeloId tp.1, tp.2))).map Prod.snd
      = apps.map Prod.snd := by
    rw [List.map_map]
    rfl
  rw [h4] at h3
  exact h3

/-- C6 witness: two appends in distinct seconds are both retrieved — here
through a listing that enumerates the directory in the REVERSE of creation
order — with neither snapshot lost nor duplicated. -/
theorem obtener_metricas_perm_witness :
    (obtenerMetricasModelo
        [(metricasFileName "m" "20260102_020202", "snap2"),
         (metricasFileName "m" "20260101_010101", "snap1")] "m").Perm
      ["snap1", "snap2"] :=
  obtener_metricas_perm_of_distinct_timestamps "m"
    [("20260101_010101", "snap1"), ("20260102_020202", "snap2")]
    [(metricasFileName "m" "20260102_020202", "snap2"),
     (metricasFileName "m" "20260101_010101", "snap1")]
    (by decide) (by decide)

/-- C8 counterexample: drift detection for an id with no stored metadata,
and for an id whose metadata lacks the reference distribution (as every
document written by `registrar_modelo` does), returns the empty mapping —
the very value a successful call with an empty reference returns — and
metrics retrieval on a missing directory returns the empty table.  No error
of any kind reaches the caller. -/
theorem detectar_drift_swallows_errors :
    detectarDrift [] "m-desconocido" [("price", 100, 20)] = []
    ∧ detectarDrift [("m0", some [])] "m0" [("price", 100, 20)] = []
    ∧ obtenerMetricasModeloSafe none "m-desconocido" = [] := by
  refine ⟨rfl, by decide, rfl⟩

/-- C8 as amended: `detectar_drift` catches every internal failure (missing
model, missing metadata document, metadata without a reference
distribution) and silently returns the empty mapping, and
`obtener_metricas_modelo` likewise returns an empty table when the metrics
directory cannot be read — failures are indistinguishable from genuinely
empty successful results. -/
theorem detectar_drift_failure_returns_empty
    (store : List (String × Option Dist)) (modeloId : String) (cand : Dist)
    (h : alistLookup modeloId store = none ∨ alistLookup modeloId store = some none) :
    detectarDrift store modeloId cand = []
    ∧ obtenerMetricasModeloSafe none modeloId = [] := by
  cases h with
  | inl h => simp [detectarDrift, h, obtenerMetricasModeloSafe]
  | inr h => simp [detectarDrift, h, obtenerMetricasModeloSafe]

/-- C8 witness. -/
theorem detectar_drift_failure_returns_empty_witness :
    detectarDrift [] "m1" [("price", 100, 20)] = []
    ∧ obtenerMetricasModeloSafe none "m1" = [] :=
  detectar_drift_failure_returns_empty [] "m1" [("price", 100, 20)] (Or.inl rfl)

/-- Looking a key up in a dict-like association list with unique keys finds
the binding it contains. -/
theorem alistLookup_of_mem_nodup {α : Type} {l : List (String × α)} {k : String} {v : α}
    (hm : (k, v) ∈ l) (hnd : (l.map Prod.fst).Nodup) : alistLookup k l = some v := by
  induction l with
  | nil => cases hm
  | cons e rest ih =>
      obtain ⟨k', v'⟩ := e
      have hnd' : k' ∉ rest.map Prod.fst ∧ (rest.map Prod.fst).Nodup := by
        simpa using hnd
      rcases List.mem_cons.mp hm with he | hm'
      · injection he with h1 h2
        subst h1
        subst h2
        simp [alistLookup]
      · have hk : k' ≠ k := by
          intro hk
          subst hk
          exact hnd'.1 (by simpa using List.mem_map_of_mem Prod.fst hm')
        simp [alistLookup, hk, ih hm' hnd'.2]

/-- C9: comparing a stored feature-distribution summary against itself
yields a zero mean-deviation and zero std-deviation for every reported
feature, and the spec's overall flag — `drift_detected` is true iff at
least one feature's deviation exceeds its (non-negative) threshold — is
false.  The source computes only the per-feature deviations;
`driftDetectedSpec` is the spec's §4.5 thresholding rule applied to that
report. -/
theorem detectar_drift_identical_no_drift
    (ref : Dist) (tMean tStd : ℚ) (hnd : (ref.map Prod.fst).Nodup)
    (hM : 0 ≤ tMean) (hS : 0 ≤ tStd) :
    (∀ e ∈ detectarDriftCore ref ref, e.2.1 = 0 ∧ e.2.2 = 0)
    ∧ driftDetectedSpec (detectarDriftCore ref ref) tMean tStd = false
    ∧ ∀ report : List (String × ℚ × ℚ),
        (driftDetectedSpec report tMean tStd = true
          ↔ ∃ e ∈ report, tMean < e.2.1 ∨ tStd < e.2.2) := by
  have hzero : ∀ e ∈ detectarDriftCore ref ref, e.2.1 = 0 ∧ e.2.2 = 0 := by
    intro e he
    obtain ⟨a, ha, hfa⟩ := List.mem_filterMap.mp he
    obtain ⟨f, m, s⟩ := a
    have hl : alistLookup f ref = some (m, s) := alistLookup_of_mem_nodup ha hnd
    simp only [hl] at hfa
    obtain rfl := Option.some.inj hfa
    simp [pyAbs]
  refine ⟨hzero, ?_, ?_⟩
  · simp only [driftDetectedSpec]
    rw [List.any_eq_false]
    intro e he
    obtain ⟨h1, h2⟩ := hzero e he
    simp [h1, h2, not_lt.mpr hM, not_lt.mpr hS]
  · intro report
    simp [driftDetectedSpec, List.any_eq_true]

/-- C9 witness. -/
theorem detectar_drift_identical_no_drift_witness :
    (∀ e ∈ detectarDriftCore [("price", 100, 20)] [("price", 100, 20)],
        e.2.1 = 0 ∧ e.2.2 = 0)
    ∧ driftDetectedSpec
        (detectarDriftCore [("price", 100, 20)] [("price", 100, 20)]) 1 2 = false
    ∧ ∀ report : List (String × ℚ × ℚ),
        (driftDetectedSpec report 1 2 = true
          ↔ ∃ e ∈ report, (1 : ℚ) < e.2.1 ∨ (2 : ℚ) < e.2.2) :=
  detectar_drift_identical_no_drift [("price", 100, 20)] 1 2 (by decide)
    (by norm_num) (by norm_num)

/-- C10: `MLOpsManager.__init__` never assigns `self.logger`, so every call
to `guardar_metricas` on a state whose `logger` attribute is unset raises
`AttributeError` (the handler's own `self.logger.error` re-raises it) — yet
on the path where the snapshot serialized successfully the metrics file has
already been written before the raise, so the operation mutates persistent
state and then reports failure. -/
theorem guardar_metricas_always_raises
    (st : MLOpsManagerState) (modeloId timestamp payload : String)
    (h : st.loggerAttr = none) :
    mlopsInit.loggerAttr = none
    ∧ (guardarMetricas st modeloId timestamp payload).2
        = Except.error (PyError.attributeError "logger")
    ∧ alistLookup (metricasFileName modeloId timestamp)
        (guardarMetricas st modeloId timestamp payload).1.metricasDir = some payload := by
  refine ⟨rfl, ?_, ?_⟩
  · simp [guardarMetricas, h]
  · simp [guardarMetricas, h, guardarMetricasWrite, alistLookup_listWrite]

/-- C10 witness. -/
theorem guardar_metricas_always_raises_witness :
    mlopsInit.loggerAttr = none
    ∧ (guardarMetricas mlopsInit "m" "20260101_010101" "snap").2
        = Except.error (PyError.attributeError "logger")
    ∧ alistLookup (metricasFileName "m" "20260101_010101")
        (guardarMetricas mlopsInit "m" "20260101_010101" "snap").1.metricasDir
      = some "snap" :=
  guardar_metricas_always_raises mlopsInit "m" "20260101_010101" "snap" rfl

end H2OPBI
